import Mathlib

/-!
Shallow embedding of the `AuthService` of `of-substance-BE`
(src/src/video/video.service.ts, the full variant with audit logging,
email verification and password reset — lines 254–631 of the file).

Conventions of the embedding:
* Time is an abstract `Nat` clock (the code mixes seconds and milliseconds;
  all comparisons in a single operation use one unit, so one abstract clock
  is faithful).
* A JSON web token is a `Jwt` record: its payload, its `exp` claim, the
  secret it was signed with, and a `sigValid` flag.  A tampered token is one
  whose `sigValid` is `false` (the signature bytes no longer match the
  payload); `jwt.verify` rejects it, `jwtService.decode` — which performs no
  signature check — still returns its payload.  A string input that is
  missing or not parseable as a JWT at all is modelled as `none : Option Jwt`
  (`decode` returns `null` on it, `verify` throws).
* The persistent store is a `List UserRec`; `save`/`update` are modelled by
  mapping over the list.  Each operation returns its result together with
  the store it leaves behind and (for login paths) the audit events it
  appended.
* Thrown Nest exceptions are modelled by the `Err` type; a `try/catch` that
  rethrows the caught error wrapped in `BadRequestException(err)` is
  modelled by the `Err.badRequestWrap` constructor.
-/

namespace OfSubstance

/-- Account lifecycle states (src/enums/status.enum). -/
inductive Status where
  | unverified
  | active
  | inactive
deriving Repr, DecidableEq

/-- Nest exception kinds thrown by the service.  `badRequestWrap e` models
`throw new BadRequestException(err)` rewrapping a caught error `e`;
`ioFault` models an exception escaping from an external collaborator
(e.g. the email gateway). -/
inductive Err where
  | badRequest (msg : String)
  | notFound (msg : String)
  | forbidden (msg : String)
  | badRequestWrap (inner : Err)
  | ioFault (msg : String)
deriving Repr, DecidableEq

/-- JWT payloads used by the service: session tokens carry
`{ sub: userId, role }`, email-verification tokens carry `{ email }`,
password-reset tokens carry `{ id }`. -/
inductive Payload where
  | session (sub : String) (role : String)
  | emailClaim (email : String)
  | idClaim (id : String)
deriving Repr, DecidableEq

/-- A signed JWT.  `sigValid = false` models a tampered token: the payload
still decodes but the signature no longer verifies. -/
structure Jwt where
  payload : Payload
  exp : Nat
  secret : String
  sigValid : Bool
deriving Repr, DecidableEq

/-- `jwt.sign(payload, secret, { expiresIn: ttl })`. -/
def jwtSign (p : Payload) (secret : String) (now ttl : Nat) : Jwt :=
  { payload := p, exp := now + ttl, secret := secret, sigValid := true }

/-- `jwt.verify(token, secret)`: succeeds only when the signature is intact,
was produced with `secret`, and the token is unexpired (jsonwebtoken throws
`TokenExpiredError` when `now >= exp`).  `none` models the throw. -/
def jwtVerify (t : Jwt) (secret : String) (now : Nat) : Option Payload :=
  if t.sigValid && t.secret == secret && now < t.exp then some t.payload else none

/-- `jwtService.decode(token)`: pure base64 decoding, no signature and no
expiry check; returns the payload and the `exp` claim, or `null` (here
`none`) when the input is missing or not a parseable JWT. -/
def jwtDecode (t : Option Jwt) : Option (Payload × Nat) :=
  t.map fun x => (x.payload, x.exp)

/-- `decoded.sub` — present only on session-shaped payloads. -/
def payloadSub : Payload → Option String
  | .session s _ => some s
  | .emailClaim _ => none
  | .idClaim _ => none

/-- `payload.email` — present only on email-verification payloads. -/
def payloadEmail : Payload → Option String
  | .session _ _ => none
  | .emailClaim e => some e
  | .idClaim _ => none

/-- `decoded.id` — present only on password-reset payloads. -/
def payloadId : Payload → Option String
  | .session _ _ => none
  | .emailClaim _ => none
  | .idClaim i => some i

/-- Client request context (`@Req() req`): ip, user-agent, device hint. -/
structure Req where
  ip : Option String
  userAgent : Option String
  deviceHint : Option String
deriving Repr, DecidableEq

/-- Immutable audit record (src/entities/login_events.entity). -/
structure LoginEventRec where
  userId : String
  timestamp : Nat
  ipAddress : Option String
  userAgent : Option String
  deviceInfo : Option String
  loginMethod : String
  successful : Bool
  failureReason : Option String
deriving Repr, DecidableEq

/-- 1:1 profile created with the user at signup. -/
structure ProfileRec where
  business_name : String
  website : String
  state_region : String
  country : String
  utilization_purpose : String
  interests : String
deriving Repr, DecidableEq

/-- A persisted user row (src/entities/users.entity).  `password = none`
models both a federated-only account (no hash stored) and the
`delete user.password` hygiene performed on returned representations. -/
structure UserRec where
  id : String
  email : String
  password : Option String
  role : String
  status : Status
  email_verification_token : Option Jwt
  reset_pass_token : Option Jwt
  reset_pass_token_expiry : Option Nat
  last_login : Option Nat
  email_consent : Bool
  sms_consent : Bool
  profile : Option ProfileRec
deriving Repr, DecidableEq

/-- Configured secrets and expiry windows. -/
structure Config where
  accessSecret : String
  refreshSecret : String
  accessTtl : Nat
  refreshTtl : Nat
  jwtSecret : String
deriving Repr, DecidableEq

/-- Deterministic model of `passwordStrategy.hashPassword` (bcrypt hash).
The auth logic only ever feeds a hash back into `bcrypt.compare`, so a
deterministic injective model is adequate. -/
def hashPassword (plain : String) : String :=
  "bcrypt$" ++ plain

/-- Modelled from the spec: the Password Hasher is an excluded collaborator
whose contract is `verify(plaintext, hash) -> bool`, returning `false` on
any mismatch — including a malformed or absent stored hash — and never
throwing (`bcrypt.compare`). -/
def bcryptCompare (plain : String) (storedHash : Option String) : Bool :=
  match storedHash with
  | some h => h == hashPassword plain
  | none => false

/-- `usersService.findUserByEmail` returns an array; the callers destructure
its first element.  This is that first element. -/
def firstByEmail (db : List UserRec) (email : String) : Option UserRec :=
  (db.filter (fun u => u.email == email)).head?

/-- `userRepo.findOneBy({ id })`; a missing/undefined id matches nothing. -/
def findById (db : List UserRec) (id : Option String) : Option UserRec :=
  match id with
  | none => none
  | some i => db.find? (fun u => u.id == i)

/-- `userRepo.save(u)` on an existing row: replace the row with the same id. -/
def saveUser (db : List UserRec) (u : UserRec) : List UserRec :=
  db.map fun x => if x.id == u.id then u else x

/-- `delete user.password` before returning a user representation. -/
def stripPassword (u : UserRec) : UserRec :=
  { u with password := none }

/-- The token pair issued by `getTokens`. -/
structure TokenPair where
  accessToken : Jwt
  refreshToken : Jwt
deriving Repr, DecidableEq

/-- `AuthService.getTokens(userId, role)`: signs an access and a refresh
token, each `{ sub: userId, role }`, with its own secret and TTL. -/
def getTokens (cfg : Config) (now : Nat) (userId role : String) : TokenPair :=
  { accessToken := jwtSign (.session userId role) cfg.accessSecret now cfg.accessTtl
    refreshToken := jwtSign (.session userId role) cfg.refreshSecret now cfg.refreshTtl }

/-- `generateEmailToken(email)`: `jwt.sign({ email }, JWT_SECRET,
{ expiresIn: '1d' })`. -/
def generateEmailToken (cfg : Config) (email : String) (now : Nat) : Jwt :=
  jwtSign (.emailClaim email) cfg.jwtSecret now 86400

/-- `recordLoginEvent(user, successful, loginMethod, failureReason?, req?)`:
builds and persists one immutable `LoginEvent` row. -/
def mkLoginEvent (u : UserRec) (now : Nat) (loginMethod : String)
    (successful : Bool) (failureReason : Option String) (req : Req) :
    LoginEventRec :=
  { userId := u.id, timestamp := now, ipAddress := req.ip
    userAgent := req.userAgent, deviceInfo := req.deviceHint
    loginMethod := loginMethod, successful := successful
    failureReason := failureReason }

/-- Signup payload (dto/signup.dto): credentials, consents and the nested
profile payload. -/
structure SignUpDto where
  email : String
  password : String
  emailTermsConsent : Bool
  smsConsent : Bool
  businessName : String
  website : String
  stateRegion : String
  country : String
  utilizationPurpose : String
  interests : String
deriving Repr, DecidableEq

/-- Credentials-login payload. -/
structure CredLoginDto where
  email : String
  password : String
deriving Repr, DecidableEq

/-- Modelled from the spec: the federated `identityPayload` (GoogleLoginDto,
dto not under src/) carries the account email used for the get-or-create
lookup. -/
structure GoogleLoginDto where
  email : String
deriving Repr, DecidableEq

/-- `AuthService.signUp`.  Flow: conflict check on the email; hash the
password; generate the verification token; build the profile and the user
row; `await` the verification email (an email failure — `emailOk = false` —
propagates uncaught, so nothing is persisted); save the user; call the
GoHighLevel contact sync inside `try/catch` (`ghlOk = false` is swallowed);
return the in-memory user with the password deleted.

Modelled from the spec: the `status` column default of the User entity
(entity file not under src/) — a fresh signup is persisted in the
`Unverified` state. -/
def signUp (cfg : Config) (db : List UserRec) (now : Nat) (dto : SignUpDto)
    (userRole : String) (emailOk ghlOk : Bool) (freshId : String) :
    Except Err UserRec × List UserRec :=
  if (db.filter (fun u => u.email == dto.email)) ≠ [] then
    (.error (.badRequest "User with this email already exists"), db)
  else
    let encPassword := hashPassword dto.password
    let emailToken := generateEmailToken cfg dto.email now
    let newProfile : ProfileRec :=
      { business_name := dto.businessName, website := dto.website
        state_region := dto.stateRegion, country := dto.country
        utilization_purpose := dto.utilizationPurpose
        interests := dto.interests }
    let newUser : UserRec :=
      { id := freshId, email := dto.email, password := some encPassword
        role := userRole, status := .unverified
        email_verification_token := some emailToken
        reset_pass_token := none, reset_pass_token_expiry := none
        last_login := none, email_consent := dto.emailTermsConsent
        sms_consent := dto.smsConsent, profile := some newProfile }
    if emailOk then
      -- save succeeds; a GoHighLevel failure is caught and logged only
      (.ok (stripPassword newUser), db ++ [newUser])
    else
      -- sendVerificationEmail threw before userRepo.save ran
      (.error (.ioFault "sendVerificationEmail failed"), db)

/-- `AuthService.resendVerificationEmail`: not-found on unknown email,
conflict when already active, otherwise overwrite the stored verification
token with a fresh one. -/
def resendVerificationEmail (cfg : Config) (db : List UserRec) (now : Nat)
    (email : String) : Except Err Unit × List UserRec :=
  match firstByEmail db email with
  | none => (.error (.notFound "User with this email does not exist"), db)
  | some u =>
    if u.status = .active then
      (.error (.badRequest "Account already verified"), db)
    else
      let tok := generateEmailToken cfg email now
      (.ok (),
        db.map fun x =>
          if x.id == u.id then { x with email_verification_token := some tok }
          else x)

/-- The body of `AuthService.verifyEmail`'s `try` block: verify the token
cryptographically, look the user up by the embedded email (throwing
`NotFoundException` when absent), set the status to `Active`.  The stored
`email_verification_token` is neither compared nor cleared here. -/
def verifyEmailBody (cfg : Config) (db : List UserRec) (now : Nat)
    (token : Option Jwt) : Except Err Unit × List UserRec :=
  match token.bind (fun t => jwtVerify t cfg.jwtSecret now) with
  | none => (.error (.badRequest "jwt.verify threw"), db)
  | some payload =>
    match (payloadEmail payload).bind (firstByEmail db) with
    | none => (.error (.notFound "User with this email does not exist"), db)
    | some u =>
      (.ok (),
        db.map fun x => if x.id == u.id then { x with status := .active } else x)

/-- `AuthService.verifyEmail`: the whole body runs inside `try { ... } catch
(error) { throw new BadRequestException('Invalid or expired email
verification token.') }`, so every failure — including the internally thrown
`NotFoundException` — surfaces as this one BadRequest error. -/
def verifyEmail (cfg : Config) (db : List UserRec) (now : Nat)
    (token : Option Jwt) : Except Err Unit × List UserRec :=
  match verifyEmailBody cfg db now token with
  | (.ok (), db') => (.ok (), db')
  | (.error _, _) =>
    (.error (.badRequest "Invalid or expired email verification token."), db)

/-- Result of a credentials login: either the full token pair with the user
snapshot, or the soft `successHandler('Account not verified', { email })`
payload. -/
inductive LoginResult where
  | success (tokens : TokenPair) (user : UserRec)
  | needsVerification (email : String)
deriving Repr, DecidableEq

/-- Outcome of a login-shaped operation: the returned value or thrown error,
the audit events appended during the call, and the store left behind. -/
structure LoginOutcome where
  result : Except Err LoginResult
  events : List LoginEventRec
  db : List UserRec
deriving Repr

/-- `AuthService.login`.  Branches in source order: unknown email → NotFound
(no audit — no user row to reference); inactive → one failed audit, then
BadRequest "Account Restricted!"; unverified → one failed audit, then the
soft success payload with the email; wrong password → one failed audit, then
BadRequest "Invalid password"; otherwise update `last_login`, save, record
one successful audit, issue tokens, return user with password stripped. -/
def login (cfg : Config) (db : List UserRec) (now : Nat) (info : CredLoginDto)
    (req : Req) : LoginOutcome :=
  match firstByEmail db info.email with
  | none =>
    { result := .error (.notFound "User with this email does not exist")
      events := [], db := db }
  | some userInfo =>
    if userInfo.status = .inactive then
      { result := .error (.badRequest "Account Restricted!")
        events :=
          [mkLoginEvent userInfo now "credentials" false
            (some "Account Restricted") req]
        db := db }
    else if userInfo.status = .unverified then
      { result := .ok (.needsVerification userInfo.email)
        events :=
          [mkLoginEvent userInfo now "credentials" false
            (some "Account not verified") req]
        db := db }
    else if ¬ bcryptCompare info.password userInfo.password then
      { result := .error (.badRequest "Invalid password")
        events :=
          [mkLoginEvent userInfo now "credentials" false
            (some "Invalid password") req]
        db := db }
    else
      let updated := { userInfo with last_login := some now }
      { result :=
          .ok (.success (getTokens cfg now updated.id updated.role)
            (stripPassword updated))
        events := [mkLoginEvent updated now "credentials" true none req]
        db := saveUser db updated }

/-- Value returned by a successful refresh. -/
structure RefreshOk where
  accessToken : Jwt
  refreshToken : Jwt
  user : UserRec
deriving Repr, DecidableEq

/-- The body of `AuthService.refreshTokens`'s `try` block: `decode` the
token (no signature check), reject a null decode, reject when the `exp`
claim is already in the past, reject when the subject resolves to no user;
otherwise mint a fresh pair.  Every rejection throws
`ForbiddenException('Access Denied')`. -/
def refreshBody (cfg : Config) (db : List UserRec) (now : Nat)
    (token : Option Jwt) : Except Err RefreshOk :=
  match jwtDecode token with
  | none => .error (.forbidden "Access Denied")
  | some (payload, expires) =>
    if expires < now then .error (.forbidden "Access Denied")
    else
      match findById db (payloadSub payload) with
      | none => .error (.forbidden "Access Denied")
      | some userInfo =>
        let tokens := getTokens cfg now userInfo.id userInfo.role
        .ok { accessToken := tokens.accessToken
              refreshToken := tokens.refreshToken
              user := stripPassword userInfo }

/-- `AuthService.refreshTokens`: the body runs inside `try { ... } catch
(err) { throw new BadRequestException(err) }`, so each internally thrown
`ForbiddenException` is caught and rethrown wrapped in a
`BadRequestException`. -/
def refreshTokens (cfg : Config) (db : List UserRec) (now : Nat)
    (token : Option Jwt) : Except Err RefreshOk :=
  match refreshBody cfg db now token with
  | .ok r => .ok r
  | .error e => .error (.badRequestWrap e)

/-- `AuthService.googleLogin`: get-or-create by email (a created user gets
no password hash), update `last_login`, save, record one successful audit
event with method "google", issue tokens.  No status check anywhere.

Modelled from the spec: the status of a user row created on first federated
login (entity default not under src/) — the `Active`-equivalent state. -/
def googleLogin (cfg : Config) (db : List UserRec) (now : Nat)
    (dto : GoogleLoginDto) (req : Req) (freshId : String) : LoginOutcome :=
  let found := firstByEmail db dto.email
  let userInfo : UserRec :=
    match found with
    | some u => u
    | none =>
      { id := freshId, email := dto.email, password := none, role := "user"
        status := .active, email_verification_token := none
        reset_pass_token := none, reset_pass_token_expiry := none
        last_login := none, email_consent := false, sms_consent := false
        profile := none }
  let db1 := match found with
    | some _ => db
    | none => db ++ [userInfo]
  let updated := { userInfo with last_login := some now }
  { result :=
      .ok (.success (getTokens cfg now updated.id updated.role)
        (stripPassword updated))
    events := [mkLoginEvent updated now "google" true none req]
    db := saveUser db1 updated }

/-- `AuthService.forgotPassword`: not-found on unknown email; otherwise sign
a 1-hour reset token carrying `{ id: user.id }`, persist both the token and
an explicit expiry timestamp on the user, and send the reset email. -/
def forgotPassword (cfg : Config) (db : List UserRec) (now : Nat)
    (email : String) : Except Err Jwt × List UserRec :=
  match db.find? (fun u => u.email == email) with
  | none => (.error (.notFound "User not found."), db)
  | some user =>
    let token := jwtSign (.idClaim user.id) cfg.jwtSecret now 3600
    let updated :=
      { user with reset_pass_token := some token
                  reset_pass_token_expiry := some (now + 3600) }
    (.ok token, saveUser db updated)

/-- `userRepo.findOne({ where: { reset_pass_token: token, id: decoded.id } })`:
the row must hold exactly the presented token string and the decoded id. -/
def resetMatchedUser (db : List UserRec) (t : Jwt) (payload : Payload) :
    Option UserRec :=
  db.find? (fun u => u.reset_pass_token == some t && payloadId payload == some u.id)

/-- The successful-reset update applied to the matched user: hash the new
password, clear both the stored token and its expiry (single-use
enforcement). -/
def clearResetToken (user : UserRec) (newPassword : String) : UserRec :=
  { user with password := some (hashPassword newPassword)
              reset_pass_token := none
              reset_pass_token_expiry := none }

/-- `AuthService.resetPassword`: `jwt.verify` the token (failure →
BadRequest "Invalid or expired token."); find the user matching both the
decoded id and the stored token string; reject when absent or when the
stored expiry has already passed (`expiry < now`, with a missing expiry also
rejected); on success hash the new password, clear both the stored token and
its expiry, and save. -/
def resetPassword (cfg : Config) (db : List UserRec) (now : Nat)
    (token : Option Jwt) (newPassword : String) :
    Except Err Unit × List UserRec :=
  match token with
  | none => (.error (.badRequest "Invalid or expired token."), db)
  | some t =>
    match jwtVerify t cfg.jwtSecret now with
    | none => (.error (.badRequest "Invalid or expired token."), db)
    | some decoded =>
      match resetMatchedUser db t decoded with
      | none => (.error (.badRequest "Invalid or expired token."), db)
      | some user =>
        match user.reset_pass_token_expiry with
        | none => (.error (.badRequest "Invalid or expired token."), db)
        | some e =>
          if e < now then
            (.error (.badRequest "Invalid or expired token."), db)
          else
            (.ok (), saveUser db (clearResetToken user newPassword))

/-- `true` exactly when the operation returned rather than threw. -/
def isOkE {α : Type} : Except Err α → Bool
  | .ok _ => true
  | .error _ => false

/-- `true` exactly when a login-shaped call returned a full token pair. -/
def issuedTokens : Except Err LoginResult → Bool
  | .ok (.success _ _) => true
  | _ => false

/-- Value carried by a non-throwing return, if any. -/
def okValue {α : Type} : Except Err α → Option α
  | .ok a => some a
  | .error _ => none

/-! Concrete fixtures used by witnesses and counterexamples. -/

/-- Sample configuration. -/
def cfgW : Config :=
  { accessSecret := "as", refreshSecret := "rs", accessTtl := 900
    refreshTtl := 604800, jwtSecret := "js" }

/-- Sample request context. -/
def reqW : Req :=
  { ip := some "203.0.113.7", userAgent := some "agent", deviceHint := none }

/-- Sample active user with a stored password hash. -/
def baseUser : UserRec :=
  { id := "u1", email := "a@x.com", password := some (hashPassword "pw1")
    role := "user", status := .active, email_verification_token := none
    reset_pass_token := none, reset_pass_token_expiry := none
    last_login := none, email_consent := true, sms_consent := false
    profile := none }

/-- Sample inactive (restricted) user. -/
def inactiveUser : UserRec :=
  { baseUser with id := "u2", email := "b@x.com", status := .inactive }

/-- Sample unverified user holding a stored verification token. -/
def unverifiedUser : UserRec :=
  { baseUser with id := "u3", email := "c@x.com", status := .unverified
                  email_verification_token :=
                    some (generateEmailToken cfgW "c@x.com" 0) }

/-- Sample signup payload. -/
def dtoW : SignUpDto :=
  { email := "new@x.com", password := "pw9", emailTermsConsent := true
    smsConsent := false, businessName := "biz", website := "w"
    stateRegion := "sr", country := "co", utilizationPurpose := "up"
    interests := "i" }

/-! ### C5 — every credentials-login attempt that finds a user audits once -/

/-- C5: for every credentials-login attempt in which a user record is found
for the supplied email, exactly one audit record is created — each branch
(inactive, unverified, bad password, success) appends exactly one
`LoginEvent`, whether the attempt succeeds or fails. -/
theorem login_records_exactly_one_event (cfg : Config) (db : List UserRec)
    (now : Nat) (info : CredLoginDto) (req : Req) (u : UserRec)
    (h : firstByEmail db info.email = some u) :
    (login cfg db now info req).events.length = 1 := by
  simp only [login, h]
  split
  · rfl
  · split
    · rfl
    · split
      · rfl
      · rfl

/-- C5 witness: a concrete successful login against `baseUser` records
exactly one audit event. -/
theorem login_records_exactly_one_event_witness :
    (login cfgW [baseUser] 7 { email := "a@x.com", password := "pw1" }
      reqW).events.length = 1 :=
  login_records_exactly_one_event cfgW [baseUser] 7
    { email := "a@x.com", password := "pw1" } reqW baseUser rfl

/-! ### C8 — unverified login is a soft success with one failed audit -/

/-- C8: a credentials-login attempt against an `unverified` user — for
every supplied password, correct or not — returns the soft success payload
carrying just the user's email, records exactly one audit event with
`successful = false` and reason "Account not verified", and leaves the
store untouched. -/
theorem login_unverified_soft_success (cfg : Config) (db : List UserRec)
    (now : Nat) (em pw : String) (req : Req) (u : UserRec)
    (h1 : firstByEmail db em = some u) (h2 : u.status = .unverified) :
    (login cfg db now { email := em, password := pw } req).result
        = .ok (.needsVerification u.email)
    ∧ (login cfg db now { email := em, password := pw } req).events
        = [mkLoginEvent u now "credentials" false (some "Account not verified") req]
    ∧ (login cfg db now { email := em, password := pw } req).db = db := by
  have hni : u.status ≠ .inactive := by rw [h2]; intro hc; cases hc
  simp only [login, h1, if_neg hni, if_pos h2]
  exact ⟨trivial, trivial, trivial⟩

/-- C8 witness: the unverified fixture user with a wrong password gets the
soft payload and one failed audit record. -/
theorem login_unverified_soft_success_witness :
    (login cfgW [unverifiedUser] 9 { email := "c@x.com", password := "wrong" }
        reqW).result = .ok (.needsVerification unverifiedUser.email)
    ∧ (login cfgW [unverifiedUser] 9 { email := "c@x.com", password := "wrong" }
        reqW).events
        = [mkLoginEvent unverifiedUser 9 "credentials" false
            (some "Account not verified") reqW]
    ∧ (login cfgW [unverifiedUser] 9 { email := "c@x.com", password := "wrong" }
        reqW).db = [unverifiedUser] :=
  login_unverified_soft_success cfgW [unverifiedUser] 9 "c@x.com" "wrong" reqW
    unverifiedUser rfl rfl

/-! ### C2 — Inactive users and the two login paths -/

/-- C2 counterexample: the claim says no login operation ever issues a
token pair to an `Inactive` user, but `googleLogin` performs no status
check: against the inactive fixture user it returns a full token pair. -/
theorem googleLogin_inactive_counterexample :
    issuedTokens ((googleLogin cfgW [inactiveUser] 50 { email := "b@x.com" }
      reqW "nid").result) = true := rfl

/-- C2 amended: a credentials login against an `Inactive` user fails with
BadRequest "Account Restricted!", records exactly one audit event with
`successful = false`, and issues no tokens; but `googleLogin` against the
same user performs no status check and returns a full token pair. -/
theorem inactive_login_paths (cfg : Config) (db : List UserRec) (now : Nat)
    (em pw : String) (req : Req) (fid : String) (u : UserRec)
    (h1 : firstByEmail db em = some u) (h2 : u.status = .inactive) :
    (login cfg db now { email := em, password := pw } req).result
        = .error (.badRequest "Account Restricted!")
    ∧ (login cfg db now { email := em, password := pw } req).events
        = [mkLoginEvent u now "credentials" false (some "Account Restricted") req]
    ∧ issuedTokens ((googleLogin cfg db now { email := em } req fid).result)
        = true := by
  refine ⟨?_, ?_, ?_⟩
  · simp only [login, h1, if_pos h2]
  · simp only [login, h1, if_pos h2]
  · simp only [googleLogin, h1, issuedTokens]

/-- C2 amended witness: the concrete inactive fixture user. -/
theorem inactive_login_paths_witness :
    (login cfgW [inactiveUser] 50 { email := "b@x.com", password := "pw1" }
        reqW).result = .error (.badRequest "Account Restricted!")
    ∧ (login cfgW [inactiveUser] 50 { email := "b@x.com", password := "pw1" }
        reqW).events
        = [mkLoginEvent inactiveUser 50 "credentials" false
            (some "Account Restricted") reqW]
    ∧ issuedTokens ((googleLogin cfgW [inactiveUser] 50 { email := "b@x.com" }
        reqW "nid").result) = true :=
  inactive_login_paths cfgW [inactiveUser] 50 "b@x.com" "pw1" reqW "nid"
    inactiveUser rfl rfl

/-! ### C1 — refresh-token failure handling -/

/-- A refresh-shaped token whose signature no longer verifies (tampered)
but whose payload still decodes: subject `u1`, far-future expiry. -/
def tamperedTok : Jwt :=
  { payload := .session "u1" "user", exp := 1000, secret := "rs"
    sigValid := false }

/-- A genuine refresh token for `u1`, signed at time 0. -/
def goodRefreshTok : Jwt :=
  jwtSign (.session "u1" "user") "rs" 0 604800

/-- C1 counterexample: a tampered refresh token (signature does not verify)
whose payload decodes, is unexpired, and names an existing user is accepted
and a fresh token pair is issued — `jwtService.decode` never checks the
signature; and even a missing token fails with a `BadRequestException`
wrapping the Forbidden error, not with the Forbidden kind itself. -/
theorem refreshTokens_claimed_forbidden_counterexample :
    isOkE (refreshTokens cfgW [baseUser] 100 (some tamperedTok)) = true
    ∧ refreshTokens cfgW [baseUser] 100 none
        = .error (.badRequestWrap (.forbidden "Access Denied")) :=
  ⟨rfl, rfl⟩

/-- C1 amended: every failing refresh — missing/undecodable token, `exp`
claim in the past, or subject resolving to no user — fails with the one
uninformative error (`BadRequestException` wrapping
`ForbiddenException('Access Denied')`), and the call succeeds exactly when
the token decodes, its `exp` claim has not passed, and its subject resolves
to an existing user; signature validity is never consulted. -/
theorem refreshTokens_failure_modes (cfg : Config) (db : List UserRec)
    (now : Nat) (token : Option Jwt) :
    (∀ e, refreshTokens cfg db now token = .error e
        → e = .badRequestWrap (.forbidden "Access Denied"))
    ∧ (isOkE (refreshTokens cfg db now token) = true
        ↔ ∃ t, token = some t ∧ ¬ t.exp < now
            ∧ (findById db (payloadSub t.payload)).isSome = true) := by
  cases token with
  | none =>
    constructor
    · intro e he
      simp only [refreshTokens, refreshBody, jwtDecode, Option.map_none'] at he
      exact (Except.error.inj he).symm
    · simp only [refreshTokens, refreshBody, jwtDecode, Option.map_none', isOkE]
      constructor
      · intro hfalse; cases hfalse
      · rintro ⟨t, ht, -, -⟩; cases ht
  | some t =>
    by_cases hexp : t.exp < now
    · constructor
      · intro e he
        simp only [refreshTokens, refreshBody, jwtDecode, Option.map_some',
          if_pos hexp] at he
        exact (Except.error.inj he).symm
      · simp only [refreshTokens, refreshBody, jwtDecode, Option.map_some',
          if_pos hexp, isOkE]
        constructor
        · intro hfalse; cases hfalse
        · rintro ⟨t', ht', hexp2, -⟩
          cases Option.some.inj ht'
          exact absurd hexp hexp2
    · cases hfind : findById db (payloadSub t.payload) with
      | none =>
        constructor
        · intro e he
          simp only [refreshTokens, refreshBody, jwtDecode, Option.map_some',
            if_neg hexp, hfind] at he
          exact (Except.error.inj he).symm
        · simp only [refreshTokens, refreshBody, jwtDecode, Option.map_some',
            if_neg hexp, hfind, isOkE]
          constructor
          · intro hfalse; cases hfalse
          · rintro ⟨t', ht', -, hsome⟩
            cases Option.some.inj ht'
            rw [hfind] at hsome
            cases hsome
      | some u =>
        constructor
        · intro e he
          simp only [refreshTokens, refreshBody, jwtDecode, Option.map_some',
            if_neg hexp, hfind] at he
          cases he
        · simp only [refreshTokens, refreshBody, jwtDecode, Option.map_some',
            if_neg hexp, hfind, isOkE, true_iff]
          exact ⟨t, rfl, hexp, by rw [hfind]; rfl⟩

/-- C1 amended witness: a genuine, unexpired refresh token for the fixture
user is accepted. -/
theorem refreshTokens_failure_modes_witness :
    isOkE (refreshTokens cfgW [baseUser] 100 (some goodRefreshTok)) = true :=
  (refreshTokens_failure_modes cfgW [baseUser] 100 (some goodRefreshTok)).2.mpr
    ⟨goodRefreshTok, rfl, by decide, rfl⟩

/-! ### C6 — verifyEmail with an unknown embedded email -/

/-- A cryptographically valid verification token for an email held by no
user in the fixture store. -/
def tokGhost : Jwt :=
  generateEmailToken cfgW "ghost@x.com" 0

/-- C6 counterexample: a token that verifies, whose embedded email matches
no user, does not surface the NotFound kind — the catch block converts the
internally thrown NotFoundException into the same BadRequest
"Invalid or expired email verification token." used for malformed or
expired tokens. -/
theorem verifyEmail_unknown_email_counterexample :
    jwtVerify tokGhost cfgW.jwtSecret 20 = some (.emailClaim "ghost@x.com")
    ∧ firstByEmail [baseUser] "ghost@x.com" = none
    ∧ verifyEmail cfgW [baseUser] 20 (some tokGhost)
        = (.error (.badRequest "Invalid or expired email verification token."),
            [baseUser]) :=
  ⟨rfl, rfl, rfl⟩

/-- C6 amended: when the token verifies but its embedded email matches no
user, the `try` body does throw NotFound ("User with this email does not
exist"), but the surrounding catch converts it, so `verifyEmail` fails with
the same InvalidOrExpired BadRequest as malformed/expired/signature-mismatch
tokens — the unknown-email case is not distinguishable by the caller. -/
theorem verifyEmail_unknown_email_collapses (cfg : Config) (db : List UserRec)
    (now : Nat) (t : Jwt) (em : String)
    (h1 : jwtVerify t cfg.jwtSecret now = some (.emailClaim em))
    (h2 : firstByEmail db em = none) :
    verifyEmailBody cfg db now (some t)
        = (.error (.notFound "User with this email does not exist"), db)
    ∧ verifyEmail cfg db now (some t)
        = (.error (.badRequest "Invalid or expired email verification token."),
            db) := by
  have hb : verifyEmailBody cfg db now (some t)
      = (.error (.notFound "User with this email does not exist"), db) := by
    simp only [verifyEmailBody, Option.some_bind, h1, payloadEmail,
      Option.some_bind, h2]
  exact ⟨hb, by simp only [verifyEmail, hb]⟩

/-- C6 amended witness: the ghost-email token at the concrete store. -/
theorem verifyEmail_unknown_email_collapses_witness :
    verifyEmailBody cfgW [baseUser] 20 (some tokGhost)
        = (.error (.notFound "User with this email does not exist"), [baseUser])
    ∧ verifyEmail cfgW [baseUser] 20 (some tokGhost)
        = (.error (.badRequest "Invalid or expired email verification token."),
            [baseUser]) :=
  verifyEmail_unknown_email_collapses cfgW [baseUser] 20 tokGhost "ghost@x.com"
    rfl rfl

/-! ### C4 — verifyEmail never consults the stored verification token -/

/-- C4 counterexample: after `resendVerificationEmail` overwrites the
stored verification token, presenting the old (still cryptographically
valid) token is accepted, although it no longer equals the stored value —
`verifyEmail` never compares against `email_verification_token`. -/
theorem verifyEmail_stale_token_counterexample :
    (resendVerificationEmail cfgW [unverifiedUser] 10 "c@x.com").2
        = [{ unverifiedUser with
              email_verification_token :=
                some (generateEmailToken cfgW "c@x.com" 10) }]
    ∧ some (generateEmailToken cfgW "c@x.com" 0)
        ≠ some (generateEmailToken cfgW "c@x.com" 10)
    ∧ (verifyEmail cfgW
        [{ unverifiedUser with
            email_verification_token :=
              some (generateEmailToken cfgW "c@x.com" 10) }]
        20 (some (generateEmailToken cfgW "c@x.com" 0))).1 = .ok () :=
  ⟨rfl, by decide, rfl⟩

/-- C4 amended: `verifyEmail` accepts every token that verifies
cryptographically and whose embedded email matches an existing user,
whatever the stored `email_verification_token` value is — the stored value
is neither compared nor cleared; only the expiry and signature encoded in
the presented token bound its validity. -/
theorem verifyEmail_ignores_stored_token (cfg : Config) (db : List UserRec)
    (now : Nat) (t : Jwt) (em : String) (u : UserRec)
    (h1 : jwtVerify t cfg.jwtSecret now = some (.emailClaim em))
    (h2 : firstByEmail db em = some u) :
    verifyEmail cfg db now (some t)
      = (.ok (),
          db.map fun x =>
            if x.id == u.id then { x with status := .active } else x) := by
  have hb : verifyEmailBody cfg db now (some t)
      = (.ok (),
          db.map fun x =>
            if x.id == u.id then { x with status := .active } else x) := by
    simp only [verifyEmailBody, Option.some_bind, h1, payloadEmail,
      Option.some_bind, h2]
  simp only [verifyEmail, hb]

/-- C4 amended witness: a token signed at time 5 is accepted although the
fixture user's stored token was signed at time 0. -/
theorem verifyEmail_ignores_stored_token_witness :
    verifyEmail cfgW [unverifiedUser] 20
        (some (generateEmailToken cfgW "c@x.com" 5))
      = (.ok (),
          [unverifiedUser].map fun x =>
            if x.id == unverifiedUser.id then { x with status := .active }
            else x) :=
  verifyEmail_ignores_stored_token cfgW [unverifiedUser] 20
    (generateEmailToken cfgW "c@x.com" 5) "c@x.com" unverifiedUser rfl rfl

/-! ### C7 — result of a valid signup with a fresh email -/

/-- C7: every valid signup with an email not already registered (and the
verification email delivered) returns a user whose status is `Unverified`,
whose verification token is present (non-empty), and whose password field
has been stripped. -/
theorem signUp_fresh_email_result (cfg : Config) (db : List UserRec)
    (now : Nat) (dto : SignUpDto) (role : String) (g : Bool) (fid : String)
    (h : db.filter (fun u => u.email == dto.email) = []) :
    (okValue (signUp cfg db now dto role true g fid).1).map UserRec.status
        = some .unverified
    ∧ (okValue (signUp cfg db now dto role true g fid).1).map
        (fun u => u.email_verification_token.isSome) = some true
    ∧ (okValue (signUp cfg db now dto role true g fid).1).map UserRec.password
        = some none := by
  simp [signUp, h, okValue, stripPassword]

/-- C7 witness: the fixture signup payload against a store that does not
hold its email. -/
theorem signUp_fresh_email_result_witness :
    (okValue (signUp cfgW [baseUser] 3 dtoW "user" true true "u9").1).map
        UserRec.status = some .unverified
    ∧ (okValue (signUp cfgW [baseUser] 3 dtoW "user" true true "u9").1).map
        (fun u => u.email_verification_token.isSome) = some true
    ∧ (okValue (signUp cfgW [baseUser] 3 dtoW "user" true true "u9").1).map
        UserRec.password = some none :=
  signUp_fresh_email_result cfgW [baseUser] 3 dtoW "user" true "u9" rfl

/-! ### C10 — collaborator failures during signup -/

/-- C10: with a fresh email, (1) the GoHighLevel contact-sync outcome never
changes the result of `signUp` (its failure is swallowed), (2) a signup
whose verification email is delivered succeeds and persists exactly one new
user row, and (3) a failure of the awaited verification-email send aborts
the signup before `save` runs, leaving the store unchanged. -/
theorem signUp_collaborator_failure_handling (cfg : Config)
    (db : List UserRec) (now : Nat) (dto : SignUpDto) (role : String)
    (fid : String) (g g' : Bool)
    (h : db.filter (fun u => u.email == dto.email) = []) :
    signUp cfg db now dto role true g fid
        = signUp cfg db now dto role true g' fid
    ∧ isOkE (signUp cfg db now dto role true g fid).1 = true
    ∧ (signUp cfg db now dto role true g fid).2.length = db.length + 1
    ∧ signUp cfg db now dto role false g fid
        = (.error (.ioFault "sendVerificationEmail failed"), db) := by
  refine ⟨rfl, ?_, ?_, ?_⟩
  · simp [signUp, h, isOkE]
  · simp [signUp, h]
  · simp [signUp, h]

/-- C10 witness: fixture signup with the GoHighLevel sync failing
(`g = false`) versus succeeding, and with the email send failing. -/
theorem signUp_collaborator_failure_handling_witness :
    signUp cfgW [baseUser] 3 dtoW "user" true false "u9"
        = signUp cfgW [baseUser] 3 dtoW "user" true true "u9"
    ∧ isOkE (signUp cfgW [baseUser] 3 dtoW "user" true false "u9").1 = true
    ∧ (signUp cfgW [baseUser] 3 dtoW "user" true false "u9").2.length
        = [baseUser].length + 1
    ∧ signUp cfgW [baseUser] 3 dtoW "user" false false "u9"
        = (.error (.ioFault "sendVerificationEmail failed"), [baseUser]) :=
  signUp_collaborator_failure_handling cfgW [baseUser] 3 dtoW "user" "u9"
    false true rfl

/-! ### C3 — characterization of resetPassword -/

/-- A genuine reset token for `u1`, signed with the fixture secret at time
50 with the 1-hour TTL. -/
def resetTokW : Jwt :=
  jwtSign (.idClaim "u1") "js" 50 3600

/-- The fixture user holding `resetTokW` and its persisted expiry. -/
def resetUser : UserRec :=
  { baseUser with reset_pass_token := some resetTokW
                  reset_pass_token_expiry := some 3650 }

/-- C3: `resetPassword` succeeds exactly when the presented token verifies
cryptographically (signature intact, right secret, unexpired), a user
record matches both the decoded id and the exact stored token string, and
that record's stored expiry has not yet passed; whenever any of these
fails, the call fails with BadRequest "Invalid or expired token." and the
store — in particular every stored password hash — is unchanged. -/
theorem resetPassword_success_characterization (cfg : Config)
    (db : List UserRec) (now : Nat) (token : Option Jwt) (pw : String) :
    ((resetPassword cfg db now token pw).1 = .ok ()
      ↔ ∃ t decoded u e, token = some t
          ∧ jwtVerify t cfg.jwtSecret now = some decoded
          ∧ resetMatchedUser db t decoded = some u
          ∧ u.reset_pass_token_expiry = some e ∧ ¬ e < now)
    ∧ ((resetPassword cfg db now token pw).1 ≠ .ok ()
        → resetPassword cfg db now token pw
            = (.error (.badRequest "Invalid or expired token."), db)) := by
  cases token with
  | none =>
    refine ⟨⟨fun hc => Except.noConfusion hc, ?_⟩, fun _ => rfl⟩
    rintro ⟨t, d, u, e, ht, -⟩
    cases ht
  | some t =>
    cases hv : jwtVerify t cfg.jwtSecret now with
    | none =>
      refine ⟨⟨?_, ?_⟩, ?_⟩
      · intro hc
        simp only [resetPassword, hv] at hc
        exact Except.noConfusion hc
      · rintro ⟨t', d, u, e, ht', hv', -⟩
        cases Option.some.inj ht'
        rw [hv] at hv'
        cases hv'
      · intro _
        simp only [resetPassword, hv]
    | some decoded =>
      cases hm : resetMatchedUser db t decoded with
      | none =>
        refine ⟨⟨?_, ?_⟩, ?_⟩
        · intro hc
          simp only [resetPassword, hv, hm] at hc
          exact Except.noConfusion hc
        · rintro ⟨t', d, u, e, ht', hv', hm', -⟩
          cases Option.some.inj ht'
          rw [hv] at hv'
          cases Option.some.inj hv'
          rw [hm] at hm'
          cases hm'
        · intro _
          simp only [resetPassword, hv, hm]
      | some user =>
        cases he : user.reset_pass_token_expiry with
        | none =>
          refine ⟨⟨?_, ?_⟩, ?_⟩
          · intro hc
            simp only [resetPassword, hv, hm, he] at hc
            exact Except.noConfusion hc
          · rintro ⟨t', d, u, e, ht', hv', hm', he', -⟩
            cases Option.some.inj ht'
            rw [hv] at hv'
            cases Option.some.inj hv'
            rw [hm] at hm'
            cases Option.some.inj hm'
            rw [he] at he'
            cases he'
          · intro _
            simp only [resetPassword, hv, hm, he]
        | some e =>
          by_cases hlt : e < now
          · refine ⟨⟨?_, ?_⟩, ?_⟩
            · intro hc
              simp only [resetPassword, hv, hm, he, if_pos hlt] at hc
              exact Except.noConfusion hc
            · rintro ⟨t', d, u, e', ht', hv', hm', he', hlt'⟩
              cases Option.some.inj ht'
              rw [hv] at hv'
              cases Option.some.inj hv'
              rw [hm] at hm'
              cases Option.some.inj hm'
              rw [he] at he'
              cases Option.some.inj he'
              exact absurd hlt hlt'
            · intro _
              simp only [resetPassword, hv, hm, he, if_pos hlt]
          · refine ⟨⟨?_, ?_⟩, ?_⟩
            · intro _
              exact ⟨t, decoded, user, e, rfl, hv, hm, he, hlt⟩
            · intro _
              simp only [resetPassword, hv, hm, he, if_neg hlt]
            · intro hne
              exfalso
              exact hne (by simp only [resetPassword, hv, hm, he, if_neg hlt])

/-- C3 witness: a successful reset at the fixture store — the token
verifies, matches the stored string and id, and the stored expiry has not
passed. -/
theorem resetPassword_success_characterization_witness :
    (resetPassword cfgW [resetUser] 100 (some resetTokW) "newpw").1
      = .ok () :=
  (resetPassword_success_characterization cfgW [resetUser] 100
      (some resetTokW) "newpw").1.mpr
    ⟨resetTokW, .idClaim "u1", resetUser, 3650, rfl, rfl, rfl, rfl,
      by decide⟩

/-! ### C9 — reset tokens are single-use -/

/-- Auxiliary: a successful `jwt.verify` returns exactly the token's own
payload. -/
theorem jwtVerify_payload {t : Jwt} {s : String} {n : Nat} {p : Payload}
    (h : jwtVerify t s n = some p) : p = t.payload := by
  unfold jwtVerify at h
  split at h
  · exact (Option.some.inj h).symm
  · cases h

/-- Auxiliary: a row of `saveUser db u` is either the saved row `u` itself
or an untouched row of `db` whose id differs from `u.id`. -/
theorem mem_saveUser {db : List UserRec} {u v : UserRec}
    (h : v ∈ saveUser db u) : v = u ∨ (v ∈ db ∧ v.id ≠ u.id) := by
  simp only [saveUser, List.mem_map] at h
  rcases h with ⟨x, hx, hfx⟩
  by_cases hxi : (x.id == u.id) = true
  · left
    rw [if_pos hxi] at hfx
    exact hfx.symm
  · right
    rw [if_neg hxi] at hfx
    cases hfx
    exact ⟨hx, fun hc => hxi (beq_iff_eq.mpr hc)⟩

/-- C9: after a successful `resetPassword`, every store row the reset
token's decoded id points at has both its stored reset token and its stored
expiry cleared, and re-presenting the very same token — at any later (or
any) time — fails with BadRequest "Invalid or expired token.". -/
theorem resetPassword_single_use (cfg : Config) (db db' : List UserRec)
    (now now' : Nat) (t : Jwt) (pw pw' : String)
    (h : resetPassword cfg db now (some t) pw = (.ok (), db')) :
    (∀ u ∈ db', payloadId t.payload = some u.id →
        u.reset_pass_token = none ∧ u.reset_pass_token_expiry = none)
    ∧ (resetPassword cfg db' now' (some t) pw').1
        = .error (.badRequest "Invalid or expired token.") := by
  cases hv : jwtVerify t cfg.jwtSecret now with
  | none =>
    simp only [resetPassword, hv, Prod.mk.injEq] at h
    exact absurd h.1 (fun hc => Except.noConfusion hc)
  | some decoded =>
    cases hm : resetMatchedUser db t decoded with
    | none =>
      simp only [resetPassword, hv, hm, Prod.mk.injEq] at h
      exact absurd h.1 (fun hc => Except.noConfusion hc)
    | some user =>
      cases he : user.reset_pass_token_expiry with
      | none =>
        simp only [resetPassword, hv, hm, he, Prod.mk.injEq] at h
        exact absurd h.1 (fun hc => Except.noConfusion hc)
      | some e =>
        by_cases hlt : e < now
        · simp only [resetPassword, hv, hm, he, if_pos hlt, Prod.mk.injEq] at h
          exact absurd h.1 (fun hc => Except.noConfusion hc)
        · simp only [resetPassword, hv, hm, he, if_neg hlt, Prod.mk.injEq] at h
          obtain ⟨-, hdb⟩ := h
          have hdp : decoded = t.payload := jwtVerify_payload hv
          subst hdp
          simp only [resetMatchedUser] at hm
          have hpred := List.find?_some hm
          simp only [Bool.and_eq_true, beq_iff_eq] at hpred
          obtain ⟨htok, hid⟩ := hpred
          have hcid : (clearResetToken user pw).id = user.id := rfl
          refine ⟨?_, ?_⟩
          · intro u hu hpid
            rw [← hdb] at hu
            rcases mem_saveUser hu with rfl | ⟨-, hne⟩
            · exact ⟨rfl, rfl⟩
            · exact absurd
                (by rw [hcid]; exact Option.some.inj (hpid.symm.trans hid))
                hne
          · cases hv' : jwtVerify t cfg.jwtSecret now' with
            | none => simp only [resetPassword, hv']
            | some d' =>
              have hd' : d' = t.payload := jwtVerify_payload hv'
              subst hd'
              have hnone : resetMatchedUser db' t t.payload = none := by
                rw [← hdb]
                simp only [resetMatchedUser]
                rw [List.find?_eq_none]
                intro y hy
                rcases mem_saveUser hy with rfl | ⟨-, hne⟩
                · simp [clearResetToken]
                · simp only [Bool.and_eq_true, beq_iff_eq]
                  rintro ⟨-, hpy⟩
                  exact hne
                    (by rw [hcid]
                        exact Option.some.inj (hpy.symm.trans hid))
              simp only [resetPassword, hv', hnone]

/-- C9 witness: after the fixture reset succeeds, the cleared store rejects
the same token. -/
theorem resetPassword_single_use_witness :
    (resetPassword cfgW [clearResetToken resetUser "npw"] 200
        (some resetTokW) "again").1
      = .error (.badRequest "Invalid or expired token.") :=
  (resetPassword_single_use cfgW [resetUser] [clearResetToken resetUser "npw"]
    100 200 resetTokW "npw" "again" rfl).2

end OfSubstance
